import Mathlib

/-!
A shallow embedding of `pyhive/sqlalchemy_presto.py`: the Presto dialect for
SQLAlchemy.  Pure functions of the module are translated to Lean functions;
the connection handle is modelled as a function from the SQL text of a query
to the outcome the underlying DB-API client reports (rows, or a
`presto.DatabaseError` carrying a message payload); Python exceptions become
explicit result constructors.
-/

namespace PyHive

/-! ## Identifier quoting (`PrestoIdentifierPreparer`) -/

/-- `PrestoIdentifierPreparer.reserved_words` (lines 23-102): the frozenset of
lowercase reserved words of the Presto grammar. -/
def reserved_words : List String := [
  "all", "and", "as", "asc", "between", "bigint", "boolean", "by", "case",
  "cast", "char", "character", "coalesce", "constraint", "create", "cross",
  "current_date", "current_time", "current_timestamp", "dec", "decimal",
  "desc", "describe", "distinct", "double", "drop", "else", "end", "escape",
  "except", "exists", "extract", "false", "first", "for", "from", "full",
  "group", "having", "if", "in", "inner", "int", "integer", "intersect",
  "is", "join", "last", "left", "like", "limit", "natural", "not", "null",
  "nullif", "nulls", "number", "numeric", "on", "or", "order", "outer",
  "recursive", "right", "select", "stratify", "substring", "table", "then",
  "true", "unbounded", "union", "using", "varchar", "varying", "when",
  "where", "with"]

/-- A character legal in an unquoted identifier: lowercase letter, digit or
underscore. -/
def legalIdentChar (c : Char) : Bool :=
  c.isLower || isDigit c || c == '_'
where isDigit (c : Char) : Bool := decide ('0' ≤ c) && decide (c ≤ '9')

/-- Python `str.lower()` restricted to what identifiers need: lowercase every
character. -/
def lowerStr (s : String) : String := String.mk (s.data.map Char.toLower)

/-- Modelled from the spec: the identifier-quoting predicate.  The predicate
itself lives in the external SQLAlchemy collaborator
(`compiler.IdentifierPreparer._requires_quotes`); only the `reserved_words`
table it consults is code of this repository.  Per the spec, an identifier
requires quoting when, case-insensitively, it is a reserved word, or when it
contains characters outside the legal unquoted-identifier set. -/
def requires_quotes (s : String) : Bool :=
  reserved_words.contains (lowerStr s) || !(s.data.all legalIdentChar)

/-- Python `value.replace('"', '""')`: double every double-quote
character. -/
def escapeQuotes : List Char → List Char
  | [] => []
  | c :: cs => if c == '"' then '"' :: '"' :: escapeQuotes cs else c :: escapeQuotes cs

/-- Modelled from the spec: the external toolkit's
`IdentifierPreparer.quote_identifier` — unconditionally wrap the value in the
double-quote identifier quote character, doubling any embedded quote. -/
def quote_identifier (s : String) : String :=
  "\"" ++ String.mk (escapeQuotes s.data) ++ "\""

/-! ## Type map -/

/-- The SQLAlchemy type descriptors this dialect can produce: the four mapped
types of `_type_map` plus the `types.NullType` fallback. -/
inductive SqlType where
  | BigInteger
  | Boolean
  | Float
  | VarString
  | NullType
deriving DecidableEq

/-- `_type_map` (lines 109-114): engine type-name string to toolkit type. -/
def _type_map : List (String × SqlType) :=
  [("bigint", .BigInteger), ("boolean", .Boolean),
   ("double", .Float), ("varchar", .VarString)]

/-! ## Rows, error payloads and outcomes of the execution collaborator -/

/-- One row of a `SHOW COLUMNS FROM t` result.  `get_columns` unpacks it
positionally as `name, coltype, nullable, _is_partition_key`; `get_indexes`
reads the same fields by name (`row['Column']`, `row['Partition Key']`). -/
structure Row where
  name : String
  coltype : String
  nullable : Bool
  partitionKey : Bool
deriving DecidableEq

/-- The message payload of a `presto.DatabaseError`: either a plain string or
a structured dict (modelled as an association list queried like
`dict.get`). -/
inductive Message where
  | plain (s : String)
  | dict (entries : List (String × String))
deriving DecidableEq

/-- Line 164: `e.message.get('message') if isinstance(e.message, dict) else
None`. -/
def extractMessage : Message → Option String
  | .dict entries => entries.lookup "message"
  | .plain _ => none

/-- Outcome of `connection.execute(query)`: rows, or a raised
`presto.DatabaseError` carrying its message payload. -/
inductive ExecResult where
  | ok (rows : List Row)
  | dbError (message : Message)

/-- The connection handle, reduced to what the dialect uses of it: execution
of a SQL text returning rows or a database error. -/
def Conn : Type := String → ExecResult

/-- Outcome of a dialect introspection call: a normal return, a raised
`sqlalchemy.exc.NoSuchTableError(table_name)`, or the original backend error
re-raised. -/
inductive PyResult (α : Type) where
  | ok (val : α)
  | noSuchTable (table_name : String)
  | raised (m : Message)
deriving DecidableEq

/-! ## The not-found regex

Lines 165-166 build `r"^Table\ \'.*{}\'\ does\ not\ exist$"` with
`re.escape(table_name)` interpolated, and test the message with `re.match`.
Python semantics embedded here: `re.escape` makes the table name match
literally; `.*` matches any characters except newline; `$` matches at the end
of the string or just before a trailing newline. -/

/-- The literal characters of the pattern before `.*`: `Table '`. -/
def notFoundPre : List Char := "Table '".data

/-- The literal characters of the pattern after the table name:
`' does not exist`. -/
def notFoundPost : List Char := "' does not exist".data

/-- Whether `Table '.*<t>' does not exist` matches the whole of `msg`
(no `$`-before-trailing-newline allowance): `msg` decomposes as
`notFoundPre ++ p ++ t ++ notFoundPost` with no newline in `p`. -/
def reMatchCore (t msg : List Char) : Bool :=
  let tail := t ++ notFoundPost
  let rest := msg.drop notFoundPre.length
  notFoundPre.isPrefixOf msg && tail.isSuffixOf rest &&
    !(rest.take (rest.length - tail.length)).contains '\n'

/-- `re.match(r"^Table\ \'.*{re.escape(t)}\'\ does\ not\ exist$", msg)` is
truthy: the core pattern matches the whole message, or — since `$` also
matches just before a newline that ends the string — the whole message with
one trailing newline removed. -/
def reMatchNotFound (t msg : String) : Bool :=
  reMatchCore t.data msg.data ||
    (msg.data.getLast? == some '\n' && reMatchCore t.data msg.data.dropLast)

/-! ## `PrestoDialect` operations -/

/-- Lines 152-154: quote the table name; when `schema` is truthy, prepend the
quoted schema and a dot. -/
def fullTableRef (table_name : String) (schema : Option String) : String :=
  let full := quote_identifier table_name
  match schema with
  | some s => if s == "" then full else quote_identifier s ++ "." ++ full
  | none => full

/-- Lines 164-169, the `except presto.DatabaseError` branch: extract the
message text (dict payloads only), and when it is truthy and the not-found
pattern matches, raise `NoSuchTableError(table_name)`; otherwise re-raise the
original error. -/
def classifyDbError (table_name : String) (m : Message) : PyResult (List Row) :=
  match extractMessage m with
  | some msg =>
      if (msg != "") && reMatchNotFound table_name msg then
        .noSuchTable table_name
      else
        .raised m
  | none => .raised m

/-- `PrestoDialect._get_table_columns` (lines 151-169). -/
def _get_table_columns (connection : Conn) (table_name : String)
    (schema : Option String) : PyResult (List Row) :=
  match connection ("SHOW COLUMNS FROM " ++ fullTableRef table_name schema) with
  | .ok rows => .ok rows
  | .dbError m => classifyDbError table_name m

/-- `PrestoDialect.has_table` (lines 171-176): `True` on success, `False` on
`NoSuchTableError`, anything else propagates. -/
def has_table (connection : Conn) (table_name : String)
    (schema : Option String) : PyResult Bool :=
  match _get_table_columns connection table_name schema with
  | .ok _ => .ok true
  | .noSuchTable _ => .ok false
  | .raised m => .raised m

/-- The SQLAlchemy column dict built at lines 188-193. -/
structure ColumnDescriptor where
  name : String
  type : SqlType
  nullable : Bool
  default : Option String
deriving DecidableEq

/-- The `util.warn` text of line 186. -/
def warnText (coltype name : String) : String :=
  "Did not recognize type '" ++ coltype ++ "' of column '" ++ name ++ "'"

/-- The row loop of `get_columns` (lines 180-194): one descriptor per row,
falling back to `types.NullType` with a warning when the type name is not in
`_type_map`.  Returns the descriptors and the warnings emitted. -/
def processColumns : List Row → List ColumnDescriptor × List String
  | [] => ([], [])
  | r :: rs =>
      let rest := processColumns rs
      match _type_map.lookup r.coltype with
      | some t =>
          ({name := r.name, type := t, nullable := r.nullable, default := none}
             :: rest.1, rest.2)
      | none =>
          ({name := r.name, type := .NullType, nullable := r.nullable,
            default := none} :: rest.1,
           warnText r.coltype r.name :: rest.2)

/-- `PrestoDialect.get_columns` (lines 178-194).  Note that the source passes
`None` — not its `schema` argument — to `_get_table_columns` (line 179). -/
def get_columns (connection : Conn) (table_name : String)
    (schema : Option String) : PyResult (List ColumnDescriptor × List String) :=
  match _get_table_columns connection table_name none with
  | .ok rows => .ok (processColumns rows)
  | .noSuchTable t => .noSuchTable t
  | .raised m => .raised m

/-- A Python dict of strings, as returned (never non-empty here) by
`get_foreign_keys` and `get_pk_constraint`. -/
def PyDict : Type := List (String × String)

/-- `PrestoDialect.get_foreign_keys` (lines 196-198): always `[]`. -/
def get_foreign_keys (_connection : Conn) (_table_name : String)
    (_schema : Option String) : List PyDict := []

/-- `PrestoDialect.get_pk_constraint` (lines 200-202): always `[]`. -/
def get_pk_constraint (_connection : Conn) (_table_name : String)
    (_schema : Option String) : List PyDict := []

/-- The index dict built at line 211. -/
structure IndexDescriptor where
  name : String
  column_names : List String
  unique : Bool
deriving DecidableEq

/-- The row loop of `get_indexes` (lines 206-209): collect, in row order, the
`Column` field of every row whose `Partition Key` field is truthy. -/
def partitionColNames : List Row → List String
  | [] => []
  | r :: rs =>
      if r.partitionKey then r.name :: partitionColNames rs
      else partitionColNames rs

/-- Lines 210-213: a single non-unique index named `partition` when any
partition-key column was collected, else no indexes. -/
def processIndexes (rows : List Row) : List IndexDescriptor :=
  let col_names := partitionColNames rows
  if col_names.isEmpty then []
  else [{name := "partition", column_names := col_names, unique := false}]

/-- `PrestoDialect.get_indexes` (lines 204-213).  Like `get_columns`, the
source passes `None` for the schema (line 205). -/
def get_indexes (connection : Conn) (table_name : String)
    (schema : Option String) : PyResult (List IndexDescriptor) :=
  match _get_table_columns connection table_name none with
  | .ok rows => .ok (processIndexes rows)
  | .noSuchTable t => .noSuchTable t
  | .raised m => .raised m

/-- `PrestoDialect.do_rollback` (lines 221-223): `pass`. -/
def do_rollback (_dbapi_connection : Conn) : Unit := ()

/-! ## `create_connect_args` -/

/-- A value of the keyword-argument dict: Python `None`, a string, or a
number (the port). -/
inductive PyVal where
  | pyNone
  | str (s : String)
  | num (n : Nat)
deriving DecidableEq

/-- The parts of a `sqlalchemy.engine.url.URL` that `create_connect_args`
reads. -/
structure SAUrl where
  host : Option String
  port : Option Nat
  username : Option String
  database : String
  query : List (String × String)

/-- An optional string as a Python value. -/
def optStr : Option String → PyVal
  | some s => .str s
  | none => .pyNone

/-- An optional number as a Python value. -/
def optNum : Option Nat → PyVal
  | some n => .num n
  | none => .pyNone

/-- Python `str.split(sep)` for a one-character separator: split at every
occurrence, keeping empty pieces (`"".split('/') == ['']`,
`"a//b".split('/') == ['a', '', 'b']`). -/
def splitChar (sep : Char) : List Char → List (List Char)
  | [] => [[]]
  | c :: cs =>
      match splitChar sep cs with
      | [] => [[]]
      | g :: gs => if c == sep then [] :: g :: gs else (c :: g) :: gs

/-- `url.database.split('/')` of line 135. -/
def splitSlash (s : String) : List String :=
  (splitChar '/' s.data).map String.mk

/-- `PrestoDialect.create_connect_args` (lines 134-149).  The kwargs dict is
modelled as an association list read by `List.lookup`, so a later assignment
is a cons in front of earlier ones: the base dict `{host, port, username}`,
then `kwargs.update(url.query)`, then the catalog/schema assignments.  The
`ValueError` of line 148 becomes `Except.error` carrying the formatted
message.  (The positional-argument list of the returned pair is always `[]`
and is omitted.) -/
def create_connect_args (url : SAUrl) : Except String (List (String × PyVal)) :=
  let db_parts := splitSlash url.database
  let kwargs : List (String × PyVal) :=
    [("host", optStr url.host), ("port", optNum url.port),
     ("username", optStr url.username)]
  let kwargs := url.query.map (fun kv => (kv.1, PyVal.str kv.2)) ++ kwargs
  match db_parts with
  | [c] => .ok (("catalog", PyVal.str c) :: kwargs)
  | [c, s] => .ok (("schema", PyVal.str s) :: ("catalog", PyVal.str c) :: kwargs)
  | _ => .error ("Unexpected database format " ++ url.database)

/-! ## Spec-side descriptions and concrete fixtures used by the theorems -/

/-- Spec-side: the ColumnDescriptor the spec promises for one row — the
mapped type when the type name is known, the unknown/null fallback
otherwise. -/
def describeColumn (r : Row) : ColumnDescriptor :=
  {name := r.name, type := (_type_map.lookup r.coltype).getD .NullType,
   nullable := r.nullable, default := none}

/-- A connection that answers only the schema-qualified query
`SHOW COLUMNS FROM "s"."t"` and reports a generic backend error for
everything else. -/
def c1conn : Conn := fun q =>
  if q == "SHOW COLUMNS FROM \"s\".\"t\"" then .ok [⟨"id", "bigint", true, false⟩]
  else .dbError (.plain "Generic failure")

/-- A connection on which every query succeeds with no rows. -/
def c3conn : Conn := fun _ => .ok []

/-- The spec's §8 example rows: a recognized `bigint` column and an
unrecognized `frobnicate` column. -/
def c4rows : List Row :=
  [⟨"id", "bigint", true, false⟩, ⟨"weird", "frobnicate", true, false⟩]

/-- A connection answering every query with `c4rows`. -/
def c4conn : Conn := fun _ => .ok c4rows

/-- The spec's §8 example rows for index discovery: exactly `region` and
`day` are flagged as partition keys. -/
def c6rows : List Row :=
  [⟨"region", "varchar", true, true⟩, ⟨"id", "bigint", true, false⟩,
   ⟨"day", "varchar", true, true⟩]

/-- A connection answering every query with `c6rows`. -/
def c6conn : Conn := fun _ => .ok c6rows

/-- A URL whose database path is a single segment but whose query string
itself carries a `schema` parameter. -/
def c5urlX : SAUrl :=
  {host := none, port := none, username := none, database := "catalog1",
   query := [("schema", "s1")]}

/-- The spec's §8 example URL: database path `catalog1`, no query
parameters. -/
def c5urlA : SAUrl :=
  {host := none, port := none, username := none, database := "catalog1",
   query := []}

/-- A connection on which every query fails with a dict-shaped message about
table `other_orders`. -/
def c10conn : Conn := fun _ =>
  .dbError (.dict [("message", "Table 'other_orders' does not exist")])

/-! ## Helper lemmas -/

theorem lookup_cons_ne {β : Type} (k k' : String) (v : β) (es : List (String × β))
    (h : (k == k') = false) : ((k', v) :: es).lookup k = es.lookup k := by
  simp [List.lookup, h]

theorem lookup_append {α β : Type} [BEq α] (k : α) (l₁ l₂ : List (α × β)) :
    (l₁ ++ l₂).lookup k = (l₁.lookup k).or (l₂.lookup k) := by
  induction l₁ with
  | nil => simp
  | cons kv rest ih =>
      obtain ⟨k', v⟩ := kv
      cases h' : k == k' with
      | true => simp [List.lookup, h', Option.or]
      | false => simp [List.lookup, h', ih]

theorem lookup_map_str (q : List (String × String)) (k : String) :
    (q.map (fun kv => (kv.1, PyVal.str kv.2))).lookup k
      = (q.lookup k).map PyVal.str := by
  induction q with
  | nil => rfl
  | cons kv rest ih =>
      obtain ⟨k', v⟩ := kv
      cases h' : k == k' with
      | true => simp [List.lookup, h']
      | false => simp [List.lookup, h', ih]

theorem reMatchCore_decomp (t p : List Char) (hp : p.contains '\n' = false) :
    reMatchCore t (notFoundPre ++ (p ++ (t ++ notFoundPost))) = true := by
  have h1 : notFoundPre.isPrefixOf (notFoundPre ++ (p ++ (t ++ notFoundPost))) = true :=
    List.isPrefixOf_iff_prefix.mpr (List.prefix_append _ _)
  have h2 : (t ++ notFoundPost).isSuffixOf (p ++ (t ++ notFoundPost)) = true :=
    List.isSuffixOf_iff_suffix.mpr (List.suffix_append _ _)
  have h3 : (p ++ (t ++ notFoundPost)).take
      ((p ++ (t ++ notFoundPost)).length - (t ++ notFoundPost).length) = p := by
    rw [List.length_append, Nat.add_sub_cancel]
    exact List.take_left _ _
  simp only [reMatchCore, List.drop_left, h1, h2, h3, hp, Bool.and_true,
    Bool.true_and, Bool.not_false]

theorem reMatchNotFound_decomp (t p : String) (hp : p.data.contains '\n' = false) :
    reMatchNotFound t ("Table '" ++ p ++ t ++ "' does not exist") = true := by
  have hd : ("Table '" ++ p ++ t ++ "' does not exist").data
      = notFoundPre ++ (p.data ++ (t.data ++ notFoundPost)) := by
    simp only [String.data_append, List.append_assoc, notFoundPre, notFoundPost]
  simp only [reMatchNotFound, hd, reMatchCore_decomp t.data p.data hp, Bool.true_or]

theorem notFoundMsg_ne_empty (t p : String) :
    ("Table '" ++ p ++ t ++ "' does not exist") ≠ "" := by
  have hpre : ("Table '" : String).data ≠ [] := by decide
  intro h0
  have h1 := congrArg String.data h0
  simp only [String.data_append] at h1
  exact hpre (List.append_eq_nil.mp
    (List.append_eq_nil.mp (List.append_eq_nil.mp h1).1).1).1

/-! ## The claims -/

/-- Claim C1 (code-bug evidence): `get_columns` does NOT reflect its schema
argument in the query text — line 179 passes `None`, not `schema`, to
`_get_table_columns`.  With a connection that succeeds only on the qualified
query `SHOW COLUMNS FROM "s"."t"`, the helper given schema `s` succeeds,
while `get_columns` with the same arguments issues the unqualified
`SHOW COLUMNS FROM "t"` and surfaces the backend error instead. -/
theorem c1_get_columns_ignores_schema :
    _get_table_columns c1conn "t" (some "s") = .ok [⟨"id", "bigint", true, false⟩]
    ∧ get_columns c1conn "t" (some "s") = .raised (.plain "Generic failure") := by
  constructor
  · decide
  · decide

/-- Claim C2 (counterexample): a plain-string error message of exactly the
matching form `Table 'orders' does not exist` is NOT classified as
no-such-table — line 164 extracts text only from dict payloads, so the
original error is re-raised. -/
theorem c2_plain_message_reraised :
    classifyDbError "orders" (.plain "Table 'orders' does not exist")
      = .raised (.plain "Table 'orders' does not exist")
    ∧ classifyDbError "orders" (.plain "Table 'orders' does not exist")
      ≠ .noSuchTable "orders" := by
  constructor
  · rfl
  · decide

/-- Claim C2 (amended): the classifier extracts message text only from a
dict payload carrying a `message` key; a plain-string payload yields no
text and the original error is re-raised; a dict payload whose non-empty
message matches the anchored pattern `Table '<prefix><table name>' does not
exist` raises the distinct no-such-table error, and any other payload
re-raises the original error unchanged. -/
theorem c2_classifier_amended (table_name msg : String)
    (entries : List (String × String)) :
    classifyDbError table_name (.plain msg) = .raised (.plain msg)
    ∧ (entries.lookup "message" = none →
        classifyDbError table_name (.dict entries) = .raised (.dict entries))
    ∧ (entries.lookup "message" = some msg → msg ≠ "" →
        reMatchNotFound table_name msg = true →
        classifyDbError table_name (.dict entries) = .noSuchTable table_name)
    ∧ (entries.lookup "message" = some msg →
        reMatchNotFound table_name msg = false →
        classifyDbError table_name (.dict entries) = .raised (.dict entries)) := by
  refine ⟨rfl, ?_, ?_, ?_⟩
  · intro h
    simp [classifyDbError, extractMessage, h]
  · intro h hne hm
    have hb : (msg != "") = true := bne_iff_ne.mpr hne
    simp [classifyDbError, extractMessage, h, hb, hm]
  · intro h hm
    simp [classifyDbError, extractMessage, h, hm]

/-- Claim C2 (witness for the amended classifier): the spec's example
message, carried in a dict payload, is classified as no-such-table. -/
theorem c2_classifier_amended_witness :
    classifyDbError "orders" (.dict [("message", "Table 'orders' does not exist")])
      = .noSuchTable "orders" :=
  (c2_classifier_amended "orders" "Table 'orders' does not exist"
      [("message", "Table 'orders' does not exist")]).2.2.1
    (by decide) (by decide) (by decide)

/-- Claim C3: `has_table` returns true when the column-listing introspection
succeeds, returns false exactly when the classified error is the
no-such-table error, and re-raises any other failure unchanged. -/
theorem c3_has_table_classification (connection : Conn) (table_name : String)
    (schema : Option String) :
    (∀ rows, _get_table_columns connection table_name schema = .ok rows →
        has_table connection table_name schema = .ok true)
    ∧ (∀ t, _get_table_columns connection table_name schema = .noSuchTable t →
        has_table connection table_name schema = .ok false)
    ∧ (∀ m, _get_table_columns connection table_name schema = .raised m →
        has_table connection table_name schema = .raised m)
    ∧ (has_table connection table_name schema = .ok false ↔
        ∃ t, _get_table_columns connection table_name schema = .noSuchTable t) := by
  cases h : _get_table_columns connection table_name schema with
  | ok rows => simp [has_table, h]
  | noSuchTable t => simp [has_table, h]
  | raised m => simp [has_table, h]

/-- Claim C3 (witness): on a connection where the query succeeds, `has_table`
returns true. -/
theorem c3_has_table_classification_witness :
    has_table c3conn "t" none = .ok true :=
  (c3_has_table_classification c3conn "t" none).1 [] rfl

/-- The first component of `processColumns` describes every row, in order. -/
theorem processColumns_fst (rows : List Row) :
    (processColumns rows).1 = rows.map describeColumn := by
  induction rows with
  | nil => rfl
  | cons r rs ih =>
      cases h : _type_map.lookup r.coltype with
      | none => simp [processColumns, h, describeColumn, ih]
      | some t => simp [processColumns, h, describeColumn, ih]

/-- The second component of `processColumns` warns exactly about the rows
whose type name is not in `_type_map`, in order. -/
theorem processColumns_snd (rows : List Row) :
    (processColumns rows).2
      = (rows.filter (fun r => (_type_map.lookup r.coltype).isNone)).map
          (fun r => warnText r.coltype r.name) := by
  induction rows with
  | nil => rfl
  | cons r rs ih =>
      cases h : _type_map.lookup r.coltype with
      | none => simp [processColumns, h, List.filter_cons, ih]
      | some t => simp [processColumns, h, List.filter_cons, ih]

/-- Claim C4: `get_columns` produces one descriptor per row with fields
`{name, type, nullable, default := none}`; a type name absent from
`_type_map` does not fail the call — the descriptor gets the `NullType`
fallback and a warning is emitted for exactly those rows. -/
theorem c4_get_columns_descriptors (rows : List Row) :
    (processColumns rows).1 = rows.map describeColumn
    ∧ (processColumns rows).1.length = rows.length
    ∧ (processColumns rows).2
        = (rows.filter (fun r => (_type_map.lookup r.coltype).isNone)).map
            (fun r => warnText r.coltype r.name)
    ∧ ∀ (connection : Conn) (table_name : String) (schema : Option String),
        connection ("SHOW COLUMNS FROM " ++ fullTableRef table_name none)
          = .ok rows →
        get_columns connection table_name schema = .ok (processColumns rows) := by
  refine ⟨processColumns_fst rows, ?_, processColumns_snd rows, ?_⟩
  · rw [processColumns_fst rows, List.length_map]
  · intro connection table_name schema h
    simp [get_columns, _get_table_columns, h]

/-- Claim C4 (witness): on the spec's §8 example rows, `get_columns` returns
the integer-typed descriptor, the unknown-type fallback descriptor and one
warning, and raises nothing. -/
theorem c4_get_columns_descriptors_witness :
    get_columns c4conn "t" (some "ignored")
      = .ok ([⟨"id", .BigInteger, true, none⟩, ⟨"weird", .NullType, true, none⟩],
             ["Did not recognize type 'frobnicate' of column 'weird'"]) := by
  have h := (c4_get_columns_descriptors c4rows).2.2.2 c4conn "t" (some "ignored") rfl
  rw [h]
  decide

/-- Claim C5 (counterexample): with a one-segment database path but a query
string that itself carries a `schema` parameter, the returned parameter
mapping DOES have a `schema` key — the query parameters are merged in before
the path-derived keys are assigned, so "no schema key" fails for such a
URL. -/
theorem c5_schema_key_from_query_params :
    (match create_connect_args c5urlX with
     | .ok kwargs => kwargs.lookup "schema"
     | .error _ => none) = some (.str "s1") := by
  decide

/-- Claim C5 (amended): splitting the database path on `/`, one segment
yields `catalog` set to that segment — and no `schema` key provided the
URL's query string does not itself carry one; two segments yield both
`catalog` and `schema`; any other count yields the configuration error
carrying the raw database string; and every query parameter not shadowed by
the path-derived keys is present in the output mapping. -/
theorem c5_connect_args_amended (url : SAUrl) :
    (∀ c, splitSlash url.database = [c] →
      ∃ kwargs, create_connect_args url = .ok kwargs
        ∧ kwargs.lookup "catalog" = some (.str c)
        ∧ (url.query.lookup "schema" = none → kwargs.lookup "schema" = none))
    ∧ (∀ c s, splitSlash url.database = [c, s] →
      ∃ kwargs, create_connect_args url = .ok kwargs
        ∧ kwargs.lookup "catalog" = some (.str c)
        ∧ kwargs.lookup "schema" = some (.str s))
    ∧ ((splitSlash url.database).length ≠ 1 →
        (splitSlash url.database).length ≠ 2 →
        create_connect_args url
          = .error ("Unexpected database format " ++ url.database))
    ∧ (∀ k v, url.query.lookup k = some v → k ≠ "catalog" → k ≠ "schema" →
        ∀ kwargs, create_connect_args url = .ok kwargs →
          kwargs.lookup k = some (.str v)) := by
  refine ⟨?_, ?_, ?_, ?_⟩
  · intro c h
    refine ⟨("catalog", PyVal.str c) ::
        (url.query.map (fun kv => (kv.1, PyVal.str kv.2)) ++
          [("host", optStr url.host), ("port", optNum url.port),
           ("username", optStr url.username)]), ?_, ?_, ?_⟩
    · simp [create_connect_args, h]
    · exact List.lookup_cons_self
    · intro hq
      rw [lookup_cons_ne _ _ _ _ (by decide), lookup_append, lookup_map_str, hq]
      simp [List.lookup]
  · intro c s h
    refine ⟨("schema", PyVal.str s) :: ("catalog", PyVal.str c) ::
        (url.query.map (fun kv => (kv.1, PyVal.str kv.2)) ++
          [("host", optStr url.host), ("port", optNum url.port),
           ("username", optStr url.username)]), ?_, ?_, ?_⟩
    · simp [create_connect_args, h]
    · rw [lookup_cons_ne _ _ _ _ (by decide)]
      exact List.lookup_cons_self
    · exact List.lookup_cons_self
  · intro h1 h2
    rcases hs : splitSlash url.database with _ | ⟨c, _ | ⟨s, _ | ⟨x, rest⟩⟩⟩
    · simp [create_connect_args, hs]
    · exact absurd (by rw [hs]; rfl : (splitSlash url.database).length = 1) h1
    · exact absurd (by rw [hs]; rfl : (splitSlash url.database).length = 2) h2
    · simp [create_connect_args, hs]
  · intro k v hq hkc hks kwargs hok
    have hbc : (k == "catalog") = false := beq_eq_false_iff_ne.mpr hkc
    have hbs : (k == "schema") = false := beq_eq_false_iff_ne.mpr hks
    have hmap : (url.query.map (fun kv => (kv.1, PyVal.str kv.2))).lookup k
        = some (PyVal.str v) := by
      rw [lookup_map_str, hq]
      rfl
    rcases hs : splitSlash url.database with _ | ⟨c, _ | ⟨s, _ | ⟨x, rest⟩⟩⟩
    · simp [create_connect_args, hs] at hok
    · simp only [create_connect_args, hs] at hok
      rw [Except.ok.injEq] at hok
      subst hok
      rw [lookup_cons_ne _ _ _ _ hbc, lookup_append, hmap]
      rfl
    · simp only [create_connect_args, hs] at hok
      rw [Except.ok.injEq] at hok
      subst hok
      rw [lookup_cons_ne _ _ _ _ hbs, lookup_cons_ne _ _ _ _ hbc,
        lookup_append, hmap]
      rfl
    · simp [create_connect_args, hs] at hok

/-- Claim C5 (witness for the amended statement): the spec's example URL with
database path `catalog1` and an empty query string yields a mapping with
`catalog` set and no `schema` key. -/
theorem c5_connect_args_amended_witness :
    ∃ kwargs, create_connect_args c5urlA = .ok kwargs
      ∧ kwargs.lookup "catalog" = some (.str "catalog1")
      ∧ (c5urlA.query.lookup "schema" = none → kwargs.lookup "schema" = none) :=
  (c5_connect_args_amended c5urlA).1 "catalog1" (by decide)

/-- The `get_indexes` row loop collects exactly the names of the rows flagged
as partition keys, in row order. -/
theorem partitionColNames_eq (rows : List Row) :
    partitionColNames rows
      = (rows.filter (fun r => r.partitionKey)).map (fun r => r.name) := by
  induction rows with
  | nil => rfl
  | cons r rs ih =>
      cases h : r.partitionKey with
      | true => simp [partitionColNames, h, List.filter_cons, ih]
      | false => simp [partitionColNames, h, List.filter_cons, ih]

/-- Claim C6: `get_indexes` collects the names of exactly the partition-key
rows in row order, returns the single descriptor `{name := "partition",
column_names, unique := false}` when that collection is non-empty, and the
empty list otherwise. -/
theorem c6_get_indexes_partition (rows : List Row) :
    partitionColNames rows
      = (rows.filter (fun r => r.partitionKey)).map (fun r => r.name)
    ∧ (partitionColNames rows = [] → processIndexes rows = [])
    ∧ (partitionColNames rows ≠ [] →
        processIndexes rows
          = [IndexDescriptor.mk "partition" (partitionColNames rows) false])
    ∧ ∀ (connection : Conn) (table_name : String) (schema : Option String),
        connection ("SHOW COLUMNS FROM " ++ fullTableRef table_name none)
          = .ok rows →
        get_indexes connection table_name schema = .ok (processIndexes rows) := by
  refine ⟨partitionColNames_eq rows, ?_, ?_, ?_⟩
  · intro h
    simp [processIndexes, h]
  · intro h
    cases hxs : partitionColNames rows with
    | nil => exact absurd hxs h
    | cons a as => simp [processIndexes, hxs]
  · intro connection table_name schema h
    simp [get_indexes, _get_table_columns, h]

/-- Claim C6 (witness): on the spec's §8 example rows, where exactly `region`
and `day` are flagged, `get_indexes` returns the single partition
descriptor. -/
theorem c6_get_indexes_partition_witness :
    get_indexes c6conn "t" none
      = .ok [⟨"partition", ["region", "day"], false⟩] := by
  have h := (c6_get_indexes_partition c6rows).2.2.2 c6conn "t" none rfl
  rw [h]
  decide

/-- Claim C7: every identifier whose lowercase form is in the reserved-word
set requires quoting, and the non-reserved identifier `my_column` does
not. -/
theorem c7_reserved_word_quoting (s : String)
    (h : reserved_words.contains (lowerStr s) = true) :
    requires_quotes s = true ∧ requires_quotes "my_column" = false := by
  constructor
  · simp only [requires_quotes, h, Bool.true_or]
  · decide

/-- Claim C7 (witness): the uppercase reserved word `SELECT` requires
quoting; `my_column` does not. -/
theorem c7_reserved_word_quoting_witness :
    requires_quotes "SELECT" = true ∧ requires_quotes "my_column" = false :=
  c7_reserved_word_quoting "SELECT" (by decide)

/-- Claim C8: `get_foreign_keys` and `get_pk_constraint` return empty results
for every input, without raising. -/
theorem c8_no_foreign_keys_no_pk (connection : Conn) (table_name : String)
    (schema : Option String) :
    get_foreign_keys connection table_name schema = []
    ∧ get_pk_constraint connection table_name schema = [] :=
  ⟨rfl, rfl⟩

/-- Claim C9: `do_rollback` performs no operation and succeeds for every
connection. -/
theorem c9_do_rollback_noop (connection : Conn) : do_rollback connection = () :=
  rfl

/-- Claim C10 (counterexample): the claim quantifies over every string `p`,
but Python's `.*` does not match a newline: with `p` a newline character the
message `Table '<p>orders' does not exist` is not matched and the original
error is re-raised, not classified as no-such-table. -/
theorem c10_newline_in_message_not_matched :
    classifyDbError "orders"
        (.dict [("message", "Table '\norders' does not exist")])
      = .raised (.dict [("message", "Table '\norders' does not exist")])
    ∧ classifyDbError "orders"
        (.dict [("message", "Table '\norders' does not exist")])
      ≠ .noSuchTable "orders" := by
  constructor
  · decide
  · decide

/-- Claim C10 (amended): for every queried table name and every
newline-free string `p`, a dict-shaped backend message
`Table '<p><table name>' does not exist` — for example one naming a
differently named table whose name merely ends in the queried name — is
classified as no-such-table for the queried name, and `has_table` on a
connection reporting that error returns false. -/
theorem c10_prefixed_table_name_matches (table_name p : String)
    (schema : Option String) (connection : Conn)
    (hp : p.data.contains '\n' = false) :
    classifyDbError table_name
        (.dict [("message", "Table '" ++ p ++ table_name ++ "' does not exist")])
      = .noSuchTable table_name
    ∧ (connection ("SHOW COLUMNS FROM " ++ fullTableRef table_name schema)
        = .dbError (.dict
            [("message", "Table '" ++ p ++ table_name ++ "' does not exist")]) →
      has_table connection table_name schema = .ok false) := by
  have hb : (("Table '" ++ p ++ table_name ++ "' does not exist") != "") = true :=
    bne_iff_ne.mpr (notFoundMsg_ne_empty table_name p)
  have hm := reMatchNotFound_decomp table_name p hp
  have hclass : classifyDbError table_name
      (.dict [("message", "Table '" ++ p ++ table_name ++ "' does not exist")])
      = .noSuchTable table_name := by
    simp [classifyDbError, extractMessage, hb, hm]
  refine ⟨hclass, ?_⟩
  intro hc
  simp [has_table, _get_table_columns, hc, hclass]

/-- Claim C10 (witness): with the queried table `orders` and the message
naming the differently named table `other_orders`, the classifier raises
no-such-table for `orders` and `has_table` returns false. -/
theorem c10_prefixed_table_name_matches_witness :
    classifyDbError "orders"
        (.dict [("message", "Table 'other_orders' does not exist")])
      = .noSuchTable "orders"
    ∧ has_table c10conn "orders" none = .ok false := by
  have h := c10_prefixed_table_name_matches "orders" "other_" none c10conn
    (by decide)
  exact ⟨h.1, h.2 rfl⟩

end PyHive
